import Mathlib

/-! ModSurfer: hardware takeover bracket of `system.c`

A shallow embedding of the parts of `src/system.c` that seize and hand back the
Amiga custom chips (`system_acquire_control`, `system_release_control`,
`allow_task_switch`, `set_intreq`, `system_acquire_blitter`,
`system_release_blitter`, `system_print_error`) and of the input-handler
session (`system_add_input_handler`, `system_remove_input_handler`).

The C code is a straight line of register reads, register writes and calls
into the operating system.  It is embedded as state passing over `Machine`,
which holds the custom-chip registers the code touches, the long word at
`get_vbr() + kVBRLvl2IntOffset`, the static struct `g`, and a trace of every
register write and every external call in program order.

Every C operation on `UWORD`/`ULONG` register values in these functions is
bitwise (`|`, `^`) or a plain copy, so no arithmetic overflow can occur on them
and they are embedded as `Nat` without reduction; the one addition, the address
`vbr + kVBRLvl2IntOffset`, is taken modulo 2^32.  The width of the three
set/clear registers is carried by `write_setclr`, which only ever changes bits
0..14.  Register reads (`custom.dmaconr`, `get_vbr()`, ...) are not recorded in
the trace; writes and calls are.  The routines of other modules
(`gfx_wait_blit`, `gfx_wait_vblank`, `memory_clear`, `mt_install_cia`,
`mt_remove_cia`) and of the operating system appear as trace entries and change
none of the registers held in `Machine`.
-/

namespace ModSurfer

/-! ## Constants -/

/-- Offset of the level 2 autovector from the vector base (`system.c`). -/
def kVBRLvl2IntOffset : Nat := 0x68

/-- The address `vbr + kVBRLvl2IntOffset` of the level 2 vector, in `ULONG`
arithmetic. -/
def vbr_lvl2_addr (vbr : Nat) : Nat :=
  (vbr + kVBRLvl2IntOffset) % 2 ^ 32

/-- Modelled from the spec: `custom.h` is not among the sources.  The spec names
what each constant stands for (the coprocessor gate mode, the master, bitplane,
copper, blitter and sprite DMA channels, the PORTS interrupt source, clear-all
masks); the values are the bit positions the Amiga chipset registers give to
those names.  `COPCON_CDANG` is the copper-danger bit (bit 1) of `copcon`. -/
def COPCON_CDANG : Nat := 0x0002

/-- Modelled from the spec: set/clear selector (bit 15) of `dmacon`. -/
def DMACON_SET : Nat := 0x8000
/-- Modelled from the spec: master DMA enable (bit 9) of `dmacon`. -/
def DMACON_DMAEN : Nat := 0x0200
/-- Modelled from the spec: bitplane DMA enable (bit 8) of `dmacon`. -/
def DMACON_BPLEN : Nat := 0x0100
/-- Modelled from the spec: copper DMA enable (bit 7) of `dmacon`. -/
def DMACON_COPEN : Nat := 0x0080
/-- Modelled from the spec: blitter DMA enable (bit 6) of `dmacon`. -/
def DMACON_BLTEN : Nat := 0x0040
/-- Modelled from the spec: sprite DMA enable (bit 5) of `dmacon`. -/
def DMACON_SPREN : Nat := 0x0020
/-- Modelled from the spec: set/clear selector (bit 15) of `intena`. -/
def INTENA_SET : Nat := 0x8000
/-- Modelled from the spec: PORTS interrupt source (bit 3) of `intena`. -/
def INTENA_PORTS : Nat := 0x0008
/-- Modelled from the spec: all fifteen enable bits of `intena`, selector clear. -/
def INTENA_CLEARALL : Nat := 0x7FFF
/-- Modelled from the spec: set/clear selector (bit 15) of `intreq`. -/
def INTREQ_SET : Nat := 0x8000
/-- Modelled from the spec: all fifteen request bits of `intreq`, selector clear. -/
def INTREQ_CLEARALL : Nat := 0x7FFF

/-- The DMA channel word written by `system_acquire_control`. -/
def kSessionDma : Nat :=
  DMACON_SET ||| DMACON_DMAEN ||| DMACON_BPLEN ||| DMACON_COPEN ||| DMACON_BLTEN ||| DMACON_SPREN

/-! ## Data model -/

/-- Commands sent to `input.device` through `DoIO`. -/
inductive InputCommand where
  | IND_ADDHANDLER
  | IND_REMHANDLER
deriving DecidableEq, Repr

/-- Register writes and external calls, in the order the program issues them. -/
inductive Effect where
  | Forbid
  | Permit
  | gfx_wait_blit
  | gfx_wait_vblank
  | write_copcon (v : Nat)
  | write_dmacon (v : Nat)
  | write_intena (v : Nat)
  | write_intreq (v : Nat)
  | write_cop1lc (v : Nat)
  | write_vbr_lvl2 (addr v : Nat)
  | memory_clear_keyboard_state
  | mt_install_cia (vbr palflag : Nat)
  | mt_remove_cia
  | OwnBlitter
  | DisownBlitter
  | Output
  | Write (buf : String)
  | CreatePort
  | CreateExtIOReq (port : Nat)
  | OpenDevice (io : Nat)
  | AllocMem
  | init_interrupt (p code data : Nat)
  | DoIOReq (io : Nat) (cmd : InputCommand) (data : Nat)
  | FreeMem (p : Nat)
  | CloseDevice (io : Nat)
  | DeleteExtIOReq (io : Nat)
  | DeletePort (port : Nat)
deriving DecidableEq, Repr

/-- The custom-chip registers used by `system.c`.  `dmaconr`, `intenar` and
`intreqr` are the readable images of the set/clear registers `dmacon`, `intena`
and `intreq`; `copcon` and `cop1lc` hold the value last stored in them. -/
structure Custom where
  copcon : Nat
  dmaconr : Nat
  intenar : Nat
  intreqr : Nat
  cop1lc : Nat
deriving DecidableEq, Repr

/-- The static struct `g` of `system.c`, field for field. -/
structure G where
  wb_closed : Bool
  save_windowptr : Nat
  input_port : Nat
  input_io : Nat
  input_opened : Bool
  input_handler : Nat
  input_handler_added : Bool
  task_switch_disabled : Bool
  blitter_owned : Bool
  save_copcon : Nat
  save_dmacon : Nat
  save_view : Nat
  save_intena : Nat
  save_intreq : Nat
  save_vbr_lvl2 : Nat
deriving DecidableEq, Repr

/-- Everything the embedded functions read or write. `vbr` is what `get_vbr()`
returns, `vbr_lvl2` the long word stored at `vbr + kVBRLvl2IntOffset`,
`level2_int` the address of the handler of `system.asm`, `copinit` the field
`GfxBase->copinit`, `DOSBase` the dos.library base pointer. -/
structure Machine where
  custom : Custom
  vbr : Nat
  vbr_lvl2 : Nat
  level2_int : Nat
  copinit : Nat
  DOSBase : Nat
  g : G
  trace : List Effect
deriving DecidableEq, Repr

/-- Results the operating system hands back to `system_add_input_handler`:
the pointers returned by `CreatePort`, `CreateExtIO` and `AllocMem` (0 is NULL)
and the error codes returned by `OpenDevice` and `DoIO` (0 is success). -/
structure InputOS where
  port : Nat
  io : Nat
  open_err : Nat
  mem : Nat
  doio_err : Nat
deriving DecidableEq, Repr

/-- Result type of the fallible functions (`Status` of the absent `common.h`);
only the distinction between `StatusOK` and a failure is used. -/
inductive Status where
  | StatusOK
  | StatusError
deriving DecidableEq, Repr

/-! ## Hardware semantics of the registers -/

/-- A write of `v` to a set/clear register (`dmacon`, `intena`, `intreq`) whose
readable image is `reg`: bit 15 of `v` selects whether the 1-bits of `v` among
bits 0..14 are set or cleared; all other bits of the register keep their
value. -/
def write_setclr (reg v : Nat) : Nat :=
  if v.testBit 15 then reg ||| (v &&& 0x7FFF) else reg ^^^ (reg &&& (v &&& 0x7FFF))

/-- Append one effect to the trace. -/
def emit (e : Effect) (m : Machine) : Machine :=
  { m with trace := m.trace ++ [e] }

/-- The effects a function adds to the trace when run from `m`. -/
def effects (f : Machine → Machine) (m : Machine) : List Effect :=
  (f m).trace.drop m.trace.length

/-- The store `custom.copcon = v`. -/
def write_copcon (v : Nat) (m : Machine) : Machine :=
  emit (Effect.write_copcon v) { m with custom := { m.custom with copcon := v } }

/-- The store `custom.dmacon = v`. -/
def write_dmacon (v : Nat) (m : Machine) : Machine :=
  emit (Effect.write_dmacon v)
    { m with custom := { m.custom with dmaconr := write_setclr m.custom.dmaconr v } }

/-- The store `custom.intena = v`. -/
def write_intena (v : Nat) (m : Machine) : Machine :=
  emit (Effect.write_intena v)
    { m with custom := { m.custom with intenar := write_setclr m.custom.intenar v } }

/-- The store `custom.intreq = v`. -/
def write_intreq (v : Nat) (m : Machine) : Machine :=
  emit (Effect.write_intreq v)
    { m with custom := { m.custom with intreqr := write_setclr m.custom.intreqr v } }

/-- The store `custom.cop1lc = v`. -/
def write_cop1lc (v : Nat) (m : Machine) : Machine :=
  emit (Effect.write_cop1lc v) { m with custom := { m.custom with cop1lc := v } }

/-- The store `*vbr_lvl2 = v` with `vbr_lvl2 = (volatile ULONG*)(vbr + kVBRLvl2IntOffset)`. -/
def write_vbr_lvl2 (v : Nat) (m : Machine) : Machine :=
  emit (Effect.write_vbr_lvl2 (vbr_lvl2_addr m.vbr) v) { m with vbr_lvl2 := v }

/-! ## Functions of `system.c` -/

/-- Function `allow_task_switch` (system.c 380-389). -/
def allow_task_switch (allow : Bool) (m : Machine) : Machine :=
  if allow && m.g.task_switch_disabled then
    { emit Effect.Permit m with g := { m.g with task_switch_disabled := false } }
  else if (!allow) && (!m.g.task_switch_disabled) then
    { emit Effect.Forbid m with g := { m.g with task_switch_disabled := true } }
  else m

/-- Function `set_intreq` (system.c 391-396): the write is issued twice. -/
def set_intreq (intreq : Nat) (m : Machine) : Machine :=
  (List.range 2).foldl (fun acc _ => write_intreq intreq acc) m

/-- Function `system_acquire_blitter` (system.c 398-403). -/
def system_acquire_blitter (m : Machine) : Machine :=
  if !m.g.blitter_owned then
    emit Effect.OwnBlitter { m with g := { m.g with blitter_owned := true } }
  else m

/-- Function `system_release_blitter` (system.c 405-410). -/
def system_release_blitter (m : Machine) : Machine :=
  if m.g.blitter_owned then
    emit Effect.DisownBlitter { m with g := { m.g with blitter_owned := false } }
  else m

/-- The three strings `system_print_error` writes. -/
def out_strs (msg : String) : List String :=
  ["modsurfer: assert(", msg, ") failed\n"]

/-- The console write of `system_print_error` (system.c 101-106): `Output()`
and one `Write` per string. -/
def console_write (msg : String) (m : Machine) : Machine :=
  (out_strs msg).foldl (fun acc s => emit (Effect.Write s) acc) (emit Effect.Output m)

/-- Function `system_print_error` (system.c 94-110). -/
def system_print_error (msg : String) (m : Machine) : Machine :=
  if m.DOSBase != 0 && (!m.g.task_switch_disabled) then
    system_acquire_blitter (console_write msg (system_release_blitter m))
  else m

/-- Function `system_acquire_control` (system.c 303-341), statement by statement. -/
def system_acquire_control (m : Machine) : Machine :=
  let m := allow_task_switch false m
  let m := emit Effect.gfx_wait_blit m
  let m := { m with g := { m.g with save_copcon := m.custom.copcon } }
  let m := write_copcon COPCON_CDANG m
  let m := { m with g := { m.g with save_dmacon := m.custom.dmaconr } }
  let m := write_dmacon kSessionDma m
  let m := { m with g := { m.g with save_intena := m.custom.intenar } }
  let m := write_intena INTENA_CLEARALL m
  let m := { m with g := { m.g with save_intreq := m.custom.intreqr } }
  let m := set_intreq INTREQ_CLEARALL m
  let m := emit Effect.memory_clear_keyboard_state m
  let m := { m with g := { m.g with save_vbr_lvl2 := m.vbr_lvl2 } }
  let m := write_vbr_lvl2 m.level2_int m
  let m := write_intena (INTENA_SET ||| INTENA_PORTS) m
  emit (Effect.mt_install_cia m.vbr 1) m

/-- Function `system_release_control` (system.c 343-378), statement by statement. -/
def system_release_control (m : Machine) : Machine :=
  let m := emit Effect.mt_remove_cia m
  let m := write_intena INTENA_PORTS m
  let m := write_vbr_lvl2 m.g.save_vbr_lvl2 m
  let m := set_intreq INTREQ_CLEARALL m
  let m := set_intreq (INTREQ_SET ||| m.g.save_intreq) m
  let m := write_intena INTENA_CLEARALL m
  let m := write_intena (INTENA_SET ||| m.g.save_intena) m
  let m := write_dmacon (m.g.save_dmacon ^^^ m.custom.dmaconr) m
  let m := emit Effect.gfx_wait_vblank m
  let m := emit Effect.gfx_wait_blit m
  let m := write_copcon m.g.save_copcon m
  let m := write_cop1lc m.copinit m
  allow_task_switch true m

/-! ## Acquisition cut after a given step

The nine steps of the acquisition algorithm, each the statements of
`system_acquire_control` that belong to it, and the run of the first `k` of
them with the remaining ones left out. -/

/-- Step 1: `allow_task_switch(FALSE)`. -/
def acquire_step1 (m : Machine) : Machine :=
  allow_task_switch false m

/-- Step 2: `gfx_wait_blit()`. -/
def acquire_step2 (m : Machine) : Machine :=
  emit Effect.gfx_wait_blit m

/-- Step 3: save `copcon`, then write `COPCON_CDANG`. -/
def acquire_step3 (m : Machine) : Machine :=
  write_copcon COPCON_CDANG { m with g := { m.g with save_copcon := m.custom.copcon } }

/-- Step 4: save `dmaconr`, then write the session's channel word. -/
def acquire_step4 (m : Machine) : Machine :=
  write_dmacon kSessionDma { m with g := { m.g with save_dmacon := m.custom.dmaconr } }

/-- Step 5: save and clear `intena`, save and clear `intreq`. -/
def acquire_step5 (m : Machine) : Machine :=
  let m := { m with g := { m.g with save_intena := m.custom.intenar } }
  let m := write_intena INTENA_CLEARALL m
  let m := { m with g := { m.g with save_intreq := m.custom.intreqr } }
  set_intreq INTREQ_CLEARALL m

/-- Step 6: `memory_clear(keyboard_state, ...)`. -/
def acquire_step6 (m : Machine) : Machine :=
  emit Effect.memory_clear_keyboard_state m

/-- Step 7: save the level 2 vector, then install `level2_int`. -/
def acquire_step7 (m : Machine) : Machine :=
  write_vbr_lvl2 m.level2_int { m with g := { m.g with save_vbr_lvl2 := m.vbr_lvl2 } }

/-- Step 8: enable the PORTS interrupt. -/
def acquire_step8 (m : Machine) : Machine :=
  write_intena (INTENA_SET ||| INTENA_PORTS) m

/-- Step 9: `mt_install_cia(&custom, vbr, 1)`. -/
def acquire_step9 (m : Machine) : Machine :=
  emit (Effect.mt_install_cia m.vbr 1) m

/-- The steps of `system_acquire_control` in program order. -/
def acquire_step_list : List (Machine → Machine) :=
  [acquire_step1, acquire_step2, acquire_step3, acquire_step4, acquire_step5,
   acquire_step6, acquire_step7, acquire_step8, acquire_step9]

/-- Run the first `k` steps of `system_acquire_control` and none of the others. -/
def acquire_steps (k : Nat) (m : Machine) : Machine :=
  (acquire_step_list.take k).foldl (fun acc step => step acc) m

/-! ## Input handler session -/

/-- Modelled from the spec: the `ASSERT` macro of `common.h` is absent.  A failed
assertion emits the console diagnostic through `system_print_error` with the
text of the asserted expression; the caller then leaves through its `cleanup`
label with a failure status. -/
def assert_failed (expr : String) (m : Machine) : Status × Machine :=
  (Status.StatusError, system_print_error expr m)

/-- Function `system_add_input_handler` (system.c 146-168).  `os` supplies what
`CreatePort`, `CreateExtIO`, `OpenDevice`, `AllocMem` and `DoIO` return. -/
def system_add_input_handler (handler_func handler_data : Nat) (os : InputOS)
    (m : Machine) : Status × Machine :=
  let m := emit Effect.CreatePort { m with g := { m.g with input_port := os.port } }
  if m.g.input_port = 0 then
    assert_failed "g.input_port = CreatePort(NULL, 0)" m
  else
  let m := emit (Effect.CreateExtIOReq m.g.input_port) { m with g := { m.g with input_io := os.io } }
  if m.g.input_io = 0 then
    assert_failed "g.input_io = (struct IOStdReq*)CreateExtIO(g.input_port, sizeof(struct IOStdReq))" m
  else
  let m := emit (Effect.OpenDevice m.g.input_io) m
  if os.open_err ≠ 0 then
    assert_failed "OpenDevice(\"input.device\", 0, (struct IORequest*)g.input_io, 0) == 0" m
  else
  let m := { m with g := { m.g with input_opened := true } }
  let m := emit Effect.AllocMem { m with g := { m.g with input_handler := os.mem } }
  if m.g.input_handler = 0 then
    assert_failed "g.input_handler = (struct Interrupt*)AllocMem(sizeof(struct Interrupt), MEMF_CLEAR)" m
  else
  let m := emit (Effect.init_interrupt m.g.input_handler handler_func handler_data) m
  let m := emit (Effect.DoIOReq m.g.input_io InputCommand.IND_ADDHANDLER m.g.input_handler) m
  if os.doio_err ≠ 0 then
    assert_failed "DoIO((struct IORequest*)g.input_io) == 0" m
  else
  (Status.StatusOK, { m with g := { m.g with input_handler_added := true } })

/-- Function `system_remove_input_handler` (system.c 170-197). -/
def system_remove_input_handler (m : Machine) : Machine :=
  let m :=
    if m.g.input_handler_added then
      emit (Effect.DoIOReq m.g.input_io InputCommand.IND_REMHANDLER m.g.input_handler)
        { m with g := { m.g with input_handler_added := false } }
    else m
  let m :=
    if m.g.input_handler ≠ 0 then
      { emit (Effect.FreeMem m.g.input_handler) m with g := { m.g with input_handler := 0 } }
    else m
  let m :=
    if m.g.input_opened then
      { emit (Effect.CloseDevice m.g.input_io) m with g := { m.g with input_opened := false } }
    else m
  let m :=
    if m.g.input_io ≠ 0 then
      { emit (Effect.DeleteExtIOReq m.g.input_io) m with g := { m.g with input_io := 0 } }
    else m
  if m.g.input_port ≠ 0 then
    { emit (Effect.DeletePort m.g.input_port) m with g := { m.g with input_port := 0 } }
  else m

/-! ## Descriptions used in the statements -/

/-- The effects of `system_release_control` up to and including the `cop1lc`
write, as a function of the state it starts from. -/
def release_writes (m : Machine) : List Effect :=
  [Effect.mt_remove_cia,
   Effect.write_intena INTENA_PORTS,
   Effect.write_vbr_lvl2 (vbr_lvl2_addr m.vbr) m.g.save_vbr_lvl2,
   Effect.write_intreq INTREQ_CLEARALL,
   Effect.write_intreq INTREQ_CLEARALL,
   Effect.write_intreq (INTREQ_SET ||| m.g.save_intreq),
   Effect.write_intreq (INTREQ_SET ||| m.g.save_intreq),
   Effect.write_intena INTENA_CLEARALL,
   Effect.write_intena (INTENA_SET ||| m.g.save_intena),
   Effect.write_dmacon (m.g.save_dmacon ^^^ m.custom.dmaconr),
   Effect.gfx_wait_vblank,
   Effect.gfx_wait_blit,
   Effect.write_copcon m.g.save_copcon,
   Effect.write_cop1lc m.copinit]

/-- The undo operations `system_remove_input_handler` performs, each gated by
its own field of `g`. -/
def remove_undo_ops (g : G) : List Effect :=
  (if g.input_handler_added then
    [Effect.DoIOReq g.input_io InputCommand.IND_REMHANDLER g.input_handler] else []) ++
  (if g.input_handler ≠ 0 then [Effect.FreeMem g.input_handler] else []) ++
  (if g.input_opened then [Effect.CloseDevice g.input_io] else []) ++
  (if g.input_io ≠ 0 then [Effect.DeleteExtIOReq g.input_io] else []) ++
  (if g.input_port ≠ 0 then [Effect.DeletePort g.input_port] else [])

/-- The fields of the input session are cleared. -/
def input_cleared (g : G) : Prop :=
  g.input_port = 0 ∧ g.input_io = 0 ∧ g.input_opened = false ∧
  g.input_handler = 0 ∧ g.input_handler_added = false

instance input_cleared_decidable (g : G) : Decidable (input_cleared g) := by
  unfold input_cleared
  infer_instance

/-! ## Example states -/

/-- The struct `g` as the C runtime zero-initialises it. -/
def g_zero : G :=
  { wb_closed := false, save_windowptr := 0, input_port := 0, input_io := 0,
    input_opened := false, input_handler := 0, input_handler_added := false,
    task_switch_disabled := false, blitter_owned := false, save_copcon := 0,
    save_dmacon := 0, save_view := 0, save_intena := 0, save_intreq := 0,
    save_vbr_lvl2 := 0 }

/-- A host state before takeover: disk DMA on beside the display channels,
several interrupt sources enabled, one request pending, task switching enabled,
blitter owned by the program. -/
def host_state : Machine :=
  { custom := { copcon := 0, dmaconr := 0x03D0, intenar := 0x602C, intreqr := 0x0020,
                cop1lc := 0x00020000 },
    vbr := 0, vbr_lvl2 := 0x00FC0D14, level2_int := 0x00041000, copinit := 0x00001F40,
    DOSBase := 0x00002A00,
    g := { g_zero with blitter_owned := true },
    trace := [] }

/-- A host state with disk DMA (bit 4) and audio channel 0 DMA (bit 0) enabled
beside the master enable. -/
def disk_audio_state : Machine :=
  { host_state with custom := { host_state.custom with dmaconr := 0x0211 } }

/-- A state at release time in which disk DMA (bit 4), enabled in the snapshot,
has been switched off since: snapshot 0x0210, readback 0x0200. -/
def dma_dropped_state : Machine :=
  { host_state with
    custom := { host_state.custom with dmaconr := 0x0200 },
    g := { host_state.g with save_dmacon := 0x0210, task_switch_disabled := true } }

/-- A host state that never ran `system_acquire_control`: `g` is all zero. -/
def fresh_state : Machine :=
  { host_state with g := g_zero }

/-- Operating-system results for a call in which the device opens and
`AllocMem` then fails. -/
def os_alloc_fails : InputOS :=
  { port := 0x00C01000, io := 0x00C01040, open_err := 0, mem := 0, doio_err := 0 }

/-! ## Bit-level facts about set/clear writes and summaries of the functions -/

theorem mask15_eq : (0x7FFF : Nat) = 2 ^ 15 - 1 := by norm_num

theorem testBit_clearall (i : Nat) : Nat.testBit 0x7FFF i = decide (i < 15) := by
  rw [mask15_eq, Nat.testBit_two_pow_sub_one]

theorem testBit_write_setclr_set (r v i : Nat) (h : v.testBit 15 = true) :
    (write_setclr r v).testBit i = (r.testBit i || (decide (i < 15) && v.testBit i)) := by
  unfold write_setclr
  rw [if_pos h, Nat.testBit_or, Nat.testBit_and, testBit_clearall]
  cases r.testBit i <;> cases v.testBit i <;> cases decide (i < 15) <;> rfl

theorem testBit_write_setclr_clr (r v i : Nat) (h : v.testBit 15 = false) :
    (write_setclr r v).testBit i = (r.testBit i && !(decide (i < 15) && v.testBit i)) := by
  unfold write_setclr
  rw [if_neg (by simp [h]), Nat.testBit_xor, Nat.testBit_and, Nat.testBit_and, testBit_clearall]
  cases r.testBit i <;> cases v.testBit i <;> cases decide (i < 15) <;> rfl

theorem testBit_of_lt_two_pow_15 (c i : Nat) (hc : c < 2 ^ 15) (hi : 15 ≤ i) :
    c.testBit i = false :=
  Nat.testBit_lt_two_pow (lt_of_lt_of_le hc (Nat.pow_le_pow_right (by norm_num) hi))

theorem testBit_set_or (s i : Nat) :
    (0x8000 ||| s).testBit i = (decide (i = 15) || s.testBit i) := by
  have h : (0x8000 : Nat) = 2 ^ 15 := by norm_num
  rw [Nat.testBit_or, h, Nat.testBit_two_pow]
  congr 1
  simp [eq_comm]

/-- Clearing all fifteen bits leaves none of them set. -/
theorem testBit_write_clearall (r i : Nat) :
    (write_setclr r 0x7FFF).testBit i = (r.testBit i && !decide (i < 15)) := by
  rw [testBit_write_setclr_clr r _ i (by decide), testBit_clearall]
  cases decide (i < 15) <;> simp

/-- Setting the bits of `s` in a register adds exactly its low fifteen bits. -/
theorem testBit_write_set_or (r s i : Nat) :
    (write_setclr r (0x8000 ||| s)).testBit i = (r.testBit i || (decide (i < 15) && s.testBit i)) := by
  have h15 : (0x8000 ||| s).testBit 15 = true := by rw [testBit_set_or]; simp
  rw [testBit_write_setclr_set r _ i h15, testBit_set_or]
  by_cases hi : i < 15
  · have : ¬ i = 15 := by omega
    simp [hi, this]
  · simp [hi]

/-- A set/clear write never changes a bit above bit 14. -/
theorem testBit_write_setclr_high (r v i : Nat) (hi : 15 ≤ i) :
    (write_setclr r v).testBit i = r.testBit i := by
  have hlt : ¬ i < 15 := by omega
  cases h : v.testBit 15
  · rw [testBit_write_setclr_clr r v i h]; simp [hlt]
  · rw [testBit_write_setclr_set r v i h]; simp [hlt]

/-- Clear-all followed by set-with-saved-value gives back the saved register,
whatever was written to its fifteen low bits in between. -/
theorem write_clearall_then_set (x e : Nat)
    (hx : ∀ i, 15 ≤ i → x.testBit i = e.testBit i) :
    write_setclr (write_setclr x 0x7FFF) (0x8000 ||| e) = e := by
  apply Nat.eq_of_testBit_eq
  intro i
  rw [testBit_write_set_or, testBit_write_clearall]
  by_cases hi : i < 15
  · simp [hi]
  · simp [hi, hx i (by omega)]

/-- Clearing the bits that differ from the snapshot after a set-only write
gives back the snapshot. -/
theorem write_xor_after_set (d s : Nat) (hs : s.testBit 15 = true) :
    write_setclr (write_setclr d s) (d ^^^ write_setclr d s) = d := by
  have h15 : (d ^^^ write_setclr d s).testBit 15 = false := by
    rw [Nat.testBit_xor, testBit_write_setclr_high d s 15 (le_refl _)]
    simp
  apply Nat.eq_of_testBit_eq
  intro i
  rw [testBit_write_setclr_clr _ _ i h15, Nat.testBit_xor, testBit_write_setclr_set d s i hs]
  cases d.testBit i <;> cases s.testBit i <;> cases decide (i < 15) <;> rfl

/-- With both words free of bit 15, the write `s ^ c` clears in `c` exactly the
bits that `s` lacks. -/
theorem testBit_write_xor (s c i : Nat) (h : (s ^^^ c).testBit 15 = false) :
    (write_setclr c (s ^^^ c)).testBit i =
      (c.testBit i && (s.testBit i || !decide (i < 15))) := by
  rw [testBit_write_setclr_clr _ _ i h, Nat.testBit_xor]
  cases c.testBit i <;> cases s.testBit i <;> cases decide (i < 15) <;> rfl

/-- All nine steps together are `system_acquire_control`. -/
theorem acquire_steps_nine : acquire_steps 9 = system_acquire_control := rfl

theorem set_intreq_twice (v : Nat) (m : Machine) :
    set_intreq v m = write_intreq v (write_intreq v m) := rfl

theorem acquire_custom (m : Machine) :
    (system_acquire_control m).custom =
      { copcon := COPCON_CDANG,
        dmaconr := write_setclr m.custom.dmaconr kSessionDma,
        intenar := write_setclr (write_setclr m.custom.intenar INTENA_CLEARALL)
          (INTENA_SET ||| INTENA_PORTS),
        intreqr := write_setclr (write_setclr m.custom.intreqr INTREQ_CLEARALL) INTREQ_CLEARALL,
        cop1lc := m.custom.cop1lc } := by
  obtain ⟨c, vbr, v2, l2, ci, dos, ⟨g1, g2, g3, g4, g5, g6, g7, ts, g9, g10, g11, g12, g13, g14, g15⟩, tr⟩ := m
  cases ts <;> rfl

theorem acquire_g (m : Machine) :
    (system_acquire_control m).g =
      { m.g with
        task_switch_disabled := true,
        save_copcon := m.custom.copcon,
        save_dmacon := m.custom.dmaconr,
        save_intena := m.custom.intenar,
        save_intreq := m.custom.intreqr,
        save_vbr_lvl2 := m.vbr_lvl2 } := by
  obtain ⟨c, vbr, v2, l2, ci, dos, ⟨g1, g2, g3, g4, g5, g6, g7, ts, g9, g10, g11, g12, g13, g14, g15⟩, tr⟩ := m
  cases ts <;> rfl

theorem acquire_frame (m : Machine) :
    (system_acquire_control m).vbr_lvl2 = m.level2_int ∧
    (system_acquire_control m).vbr = m.vbr ∧
    (system_acquire_control m).level2_int = m.level2_int ∧
    (system_acquire_control m).copinit = m.copinit ∧
    (system_acquire_control m).DOSBase = m.DOSBase := by
  obtain ⟨c, vbr, v2, l2, ci, dos, ⟨g1, g2, g3, g4, g5, g6, g7, ts, g9, g10, g11, g12, g13, g14, g15⟩, tr⟩ := m
  cases ts <;> exact ⟨rfl, rfl, rfl, rfl, rfl⟩

theorem release_custom (m : Machine) :
    (system_release_control m).custom =
      { copcon := m.g.save_copcon,
        dmaconr := write_setclr m.custom.dmaconr (m.g.save_dmacon ^^^ m.custom.dmaconr),
        intenar := write_setclr (write_setclr (write_setclr m.custom.intenar INTENA_PORTS)
          INTENA_CLEARALL) (INTENA_SET ||| m.g.save_intena),
        intreqr := write_setclr (write_setclr (write_setclr (write_setclr m.custom.intreqr
          INTREQ_CLEARALL) INTREQ_CLEARALL) (INTREQ_SET ||| m.g.save_intreq))
          (INTREQ_SET ||| m.g.save_intreq),
        cop1lc := m.copinit } := by
  obtain ⟨c, vbr, v2, l2, ci, dos, ⟨g1, g2, g3, g4, g5, g6, g7, ts, g9, g10, g11, g12, g13, g14, g15⟩, tr⟩ := m
  cases ts <;> rfl

theorem release_g (m : Machine) :
    (system_release_control m).g = { m.g with task_switch_disabled := false } := by
  obtain ⟨c, vbr, v2, l2, ci, dos, ⟨g1, g2, g3, g4, g5, g6, g7, ts, g9, g10, g11, g12, g13, g14, g15⟩, tr⟩ := m
  cases ts <;> rfl

theorem release_frame (m : Machine) :
    (system_release_control m).vbr_lvl2 = m.g.save_vbr_lvl2 ∧
    (system_release_control m).vbr = m.vbr ∧
    (system_release_control m).level2_int = m.level2_int ∧
    (system_release_control m).copinit = m.copinit ∧
    (system_release_control m).DOSBase = m.DOSBase := by
  obtain ⟨c, vbr, v2, l2, ci, dos, ⟨g1, g2, g3, g4, g5, g6, g7, ts, g9, g10, g11, g12, g13, g14, g15⟩, tr⟩ := m
  cases ts <;> exact ⟨rfl, rfl, rfl, rfl, rfl⟩

theorem release_trace (m : Machine) :
    (system_release_control m).trace =
      m.trace ++ (release_writes m ++
        if m.g.task_switch_disabled then [Effect.Permit] else []) := by
  obtain ⟨c, vbr, v2, l2, ci, dos, ⟨g1, g2, g3, g4, g5, g6, g7, ts, g9, g10, g11, g12, g13, g14, g15⟩, tr⟩ := m
  cases ts <;> simp [system_release_control, release_writes, allow_task_switch, set_intreq_twice,
    write_intena, write_intreq, write_dmacon, write_copcon, write_cop1lc, write_vbr_lvl2, emit]

theorem effects_release (m : Machine) :
    effects system_release_control m =
      release_writes m ++ if m.g.task_switch_disabled then [Effect.Permit] else [] := by
  unfold effects
  rw [release_trace, List.drop_left]

theorem intena_high_after_acquire (e i : Nat) (hi : 15 ≤ i) :
    (write_setclr (write_setclr (write_setclr e INTENA_CLEARALL)
      (INTENA_SET ||| INTENA_PORTS)) INTENA_PORTS).testBit i = e.testBit i := by
  rw [testBit_write_setclr_high _ _ i hi, testBit_write_setclr_high _ _ i hi,
    testBit_write_setclr_high _ _ i hi]

theorem intena_restore (x e : Nat) (hx : ∀ i, 15 ≤ i → x.testBit i = e.testBit i) :
    write_setclr (write_setclr x INTENA_CLEARALL) (INTENA_SET ||| e) = e :=
  write_clearall_then_set x e hx

theorem intreq_restore (x q : Nat) (hx : ∀ i, 15 ≤ i → x.testBit i = q.testBit i) :
    write_setclr (write_setclr (write_setclr (write_setclr x INTREQ_CLEARALL) INTREQ_CLEARALL)
      (INTREQ_SET ||| q)) (INTREQ_SET ||| q) = q := by
  apply Nat.eq_of_testBit_eq
  intro i
  simp only [INTREQ_SET, INTREQ_CLEARALL]
  rw [testBit_write_set_or, testBit_write_set_or, testBit_write_clearall, testBit_write_clearall]
  by_cases hi : i < 15
  · simp [hi]
  · simp [hi, hx i (by omega)]

/-- With snapshot and readback both free of bit 15, the `dmacon` write of
`system_release_control` leaves the readback AND the snapshot. -/
theorem release_dmaconr_and (m : Machine)
    (hs : m.g.save_dmacon < 2 ^ 15) (hc : m.custom.dmaconr < 2 ^ 15) :
    (system_release_control m).custom.dmaconr = m.custom.dmaconr &&& m.g.save_dmacon := by
  have h15 : (m.g.save_dmacon ^^^ m.custom.dmaconr).testBit 15 = false := by
    rw [Nat.testBit_xor, Nat.testBit_lt_two_pow hs, Nat.testBit_lt_two_pow hc]
    rfl
  apply Nat.eq_of_testBit_eq
  intro i
  rw [release_custom]
  dsimp only
  rw [testBit_write_xor _ _ i h15, Nat.testBit_and]
  by_cases hi : i < 15
  · simp [hi]
  · rw [testBit_of_lt_two_pow_15 _ i hc (by omega)]
    rfl

/-- Clear-all followed by set-with-saved-value leaves the low fifteen bits of
the saved value in the register, whatever the register held. -/
theorem write_clearall_then_set_low (x s : Nat) :
    write_setclr (write_setclr x 0x7FFF) (0x8000 ||| s) % 2 ^ 15 = s % 2 ^ 15 := by
  apply Nat.eq_of_testBit_eq
  intro i
  rw [Nat.testBit_mod_two_pow, Nat.testBit_mod_two_pow, testBit_write_set_or,
    testBit_write_clearall]
  cases decide (i < 15) <;> simp

theorem write_set_twice (x s : Nat) :
    write_setclr (write_setclr x (0x8000 ||| s)) (0x8000 ||| s) = write_setclr x (0x8000 ||| s) := by
  apply Nat.eq_of_testBit_eq
  intro i
  rw [testBit_write_set_or, testBit_write_set_or]
  cases x.testBit i <;> cases decide (i < 15) <;> cases s.testBit i <;> rfl

theorem release_intenar_low (m : Machine) :
    (system_release_control m).custom.intenar % 2 ^ 15 = m.g.save_intena % 2 ^ 15 := by
  rw [release_custom]
  exact write_clearall_then_set_low _ _

theorem release_intreqr_low (m : Machine) :
    (system_release_control m).custom.intreqr % 2 ^ 15 = m.g.save_intreq % 2 ^ 15 := by
  rw [release_custom]
  dsimp only [INTREQ_SET]
  rw [write_set_twice]
  exact write_clearall_then_set_low _ _

/-- The registers after a full bracket: all as before the acquire, except that
`cop1lc` holds `GfxBase->copinit`. -/
theorem bracket_custom (m : Machine) :
    (system_release_control (system_acquire_control m)).custom =
      { m.custom with cop1lc := m.copinit } := by
  rw [release_custom, acquire_g, acquire_custom, (acquire_frame m).2.2.2.1]
  dsimp only
  rw [write_xor_after_set m.custom.dmaconr kSessionDma (by decide),
    intena_restore _ m.custom.intenar (intena_high_after_acquire m.custom.intenar),
    intreq_restore _ m.custom.intreqr (fun i hi => by
      rw [testBit_write_setclr_high _ _ i hi, testBit_write_setclr_high _ _ i hi])]

theorem write_xor_self (d : Nat) : write_setclr d (d ^^^ d) = d := by
  rw [Nat.xor_self]
  apply Nat.eq_of_testBit_eq
  intro i
  rw [testBit_write_setclr_clr d 0 i (by simp)]
  simp

/-- Releasing when the snapshot fields already equal the registers leaves the
registers as they are, up to `cop1lc`. -/
theorem release_custom_of_saved (m : Machine)
    (h1 : m.g.save_copcon = m.custom.copcon) (h2 : m.g.save_dmacon = m.custom.dmaconr)
    (h3 : m.g.save_intena = m.custom.intenar) (h4 : m.g.save_intreq = m.custom.intreqr) :
    (system_release_control m).custom = { m.custom with cop1lc := m.copinit } := by
  rw [release_custom, h1, h2, h3, h4, write_xor_self,
    intena_restore _ m.custom.intenar
      (fun i hi => testBit_write_setclr_high _ _ i hi),
    intreq_restore _ m.custom.intreqr (fun i _ => rfl)]

/-- The five session channels of `kSessionDma` are bits 5 to 9. -/
theorem testBit_session_channels (i : Nat) :
    (DMACON_DMAEN ||| DMACON_BPLEN ||| DMACON_COPEN ||| DMACON_BLTEN ||| DMACON_SPREN).testBit i =
      decide (5 ≤ i ∧ i ≤ 9) := by
  by_cases hi : i < 15
  · interval_cases i <;> decide
  · have h : (DMACON_DMAEN ||| DMACON_BPLEN ||| DMACON_COPEN ||| DMACON_BLTEN |||
        DMACON_SPREN).testBit i = false :=
      testBit_of_lt_two_pow_15 _ i (by decide) (by omega)
    rw [h]
    symm
    simp only [decide_eq_false_iff_not]
    omega

theorem acquire_dmaconr (m : Machine) :
    (system_acquire_control m).custom.dmaconr =
      m.custom.dmaconr |||
        (DMACON_DMAEN ||| DMACON_BPLEN ||| DMACON_COPEN ||| DMACON_BLTEN ||| DMACON_SPREN) := by
  rw [acquire_custom]
  dsimp only
  unfold write_setclr
  rw [if_pos (by decide)]
  have h : kSessionDma &&& 0x7FFF =
      DMACON_DMAEN ||| DMACON_BPLEN ||| DMACON_COPEN ||| DMACON_BLTEN ||| DMACON_SPREN := by
    decide
  rw [h]

theorem steps8_custom (m : Machine) :
    (acquire_steps 8 m).custom = (system_acquire_control m).custom := by
  obtain ⟨c, vbr, v2, l2, ci, dos, ⟨g1, g2, g3, g4, g5, g6, g7, ts, g9, g10, g11, g12, g13, g14, g15⟩, tr⟩ := m
  cases ts <;> rfl

theorem steps8_g (m : Machine) :
    (acquire_steps 8 m).g = (system_acquire_control m).g := by
  obtain ⟨c, vbr, v2, l2, ci, dos, ⟨g1, g2, g3, g4, g5, g6, g7, ts, g9, g10, g11, g12, g13, g14, g15⟩, tr⟩ := m
  cases ts <;> rfl

theorem testBit_ports (i : Nat) : INTENA_PORTS.testBit i = decide (i = 3) := by
  have h : INTENA_PORTS = 2 ^ 3 := by decide
  rw [h, Nat.testBit_two_pow]
  simp [eq_comm]

theorem steps_custom (k : Nat) (hk : k ≤ 9) (m : Machine) :
    (acquire_steps k m).custom =
      { copcon := if 3 ≤ k then COPCON_CDANG else m.custom.copcon,
        dmaconr := if 4 ≤ k then write_setclr m.custom.dmaconr kSessionDma else m.custom.dmaconr,
        intenar :=
          if 8 ≤ k then
            write_setclr (write_setclr m.custom.intenar INTENA_CLEARALL)
              (INTENA_SET ||| INTENA_PORTS)
          else if 5 ≤ k then write_setclr m.custom.intenar INTENA_CLEARALL
          else m.custom.intenar,
        intreqr :=
          if 5 ≤ k then
            write_setclr (write_setclr m.custom.intreqr INTREQ_CLEARALL) INTREQ_CLEARALL
          else m.custom.intreqr,
        cop1lc := m.custom.cop1lc } := by
  obtain ⟨c, vbr, v2, l2, ci, dos, ⟨g1, g2, g3, g4, g5, g6, g7, ts, g9, g10, g11, g12, g13, g14, g15⟩, tr⟩ := m
  interval_cases k <;> cases ts <;> rfl

theorem steps_g (k : Nat) (hk : k ≤ 9) (m : Machine) :
    (acquire_steps k m).g =
      { m.g with
        task_switch_disabled := if 1 ≤ k then true else m.g.task_switch_disabled,
        save_copcon := if 3 ≤ k then m.custom.copcon else m.g.save_copcon,
        save_dmacon := if 4 ≤ k then m.custom.dmaconr else m.g.save_dmacon,
        save_intena := if 5 ≤ k then m.custom.intenar else m.g.save_intena,
        save_intreq := if 5 ≤ k then m.custom.intreqr else m.g.save_intreq,
        save_vbr_lvl2 := if 7 ≤ k then m.vbr_lvl2 else m.g.save_vbr_lvl2 } := by
  obtain ⟨c, vbr, v2, l2, ci, dos, ⟨g1, g2, g3, g4, g5, g6, g7, ts, g9, g10, g11, g12, g13, g14, g15⟩, tr⟩ := m
  interval_cases k <;> cases ts <;> rfl

theorem steps_frame (k : Nat) (hk : k ≤ 9) (m : Machine) :
    (acquire_steps k m).vbr_lvl2 = (if 7 ≤ k then m.level2_int else m.vbr_lvl2) ∧
    (acquire_steps k m).copinit = m.copinit ∧
    (acquire_steps k m).vbr = m.vbr := by
  obtain ⟨c, vbr, v2, l2, ci, dos, ⟨g1, g2, g3, g4, g5, g6, g7, ts, g9, g10, g11, g12, g13, g14, g15⟩, tr⟩ := m
  interval_cases k <;> cases ts <;> exact ⟨rfl, rfl, rfl⟩

theorem print_error_when_disabled (msg : String) (m : Machine)
    (h : m.g.task_switch_disabled = true) : system_print_error msg m = m := by
  unfold system_print_error
  rw [h]
  simp

theorem print_error_no_dos (msg : String) (m : Machine)
    (h : m.DOSBase = 0) : system_print_error msg m = m := by
  unfold system_print_error
  rw [h]
  simp

/-- Apart from `blitter_owned`, `system_print_error` changes no field of `g`. -/
theorem print_error_g (msg : String) (m : Machine) :
    (system_print_error msg m).g =
      { m.g with blitter_owned := (system_print_error msg m).g.blitter_owned } := by
  obtain ⟨c, vbr, v2, l2, ci, dos, ⟨g1, g2, g3, g4, g5, g6, g7, ts, bo, g10, g11, g12, g13, g14, g15⟩, tr⟩ := m
  by_cases hd : dos = 0
  · rw [print_error_no_dos _ _ hd]
  · cases ts
    · cases bo <;> simp [system_print_error, hd, system_acquire_blitter, system_release_blitter,
        console_write, out_strs, emit]
    · rw [print_error_when_disabled _ _ rfl]

theorem remove_effects (m : Machine) :
    effects system_remove_input_handler m = remove_undo_ops m.g := by
  obtain ⟨c, vbr, v2, l2, ci, dos, ⟨g1, g2, port, io, opened, handler, added, ts, bo, g10, g11, g12, g13, g14, g15⟩, tr⟩ := m
  by_cases hp : port = 0 <;> by_cases hi : io = 0 <;> by_cases hh : handler = 0 <;>
    cases opened <;> cases added <;>
    simp [effects, system_remove_input_handler, remove_undo_ops, emit, hp, hi, hh]

theorem remove_g (m : Machine) :
    (system_remove_input_handler m).g =
      { m.g with
        input_port := 0, input_io := 0, input_opened := false,
        input_handler := 0, input_handler_added := false } := by
  obtain ⟨c, vbr, v2, l2, ci, dos, ⟨g1, g2, port, io, opened, handler, added, ts, bo, g10, g11, g12, g13, g14, g15⟩, tr⟩ := m
  by_cases hp : port = 0 <;> by_cases hi : io = 0 <;> by_cases hh : handler = 0 <;>
    cases opened <;> cases added <;>
    simp [system_remove_input_handler, emit, hp, hi, hh]

theorem remove_twice_effects (m : Machine) :
    effects system_remove_input_handler (system_remove_input_handler m) = [] := by
  rw [remove_effects, remove_g]
  rfl

theorem assert_failed_fields (expr : String) (m : Machine) :
    (assert_failed expr m).1 = Status.StatusError ∧
    (assert_failed expr m).2.g.input_port = m.g.input_port ∧
    (assert_failed expr m).2.g.input_io = m.g.input_io ∧
    (assert_failed expr m).2.g.input_opened = m.g.input_opened ∧
    (assert_failed expr m).2.g.input_handler = m.g.input_handler ∧
    (assert_failed expr m).2.g.input_handler_added = m.g.input_handler_added := by
  have h : (assert_failed expr m).2.g =
      { m.g with blitter_owned := (system_print_error expr m).g.blitter_owned } :=
    print_error_g expr m
  refine ⟨rfl, ?_, ?_, ?_, ?_, ?_⟩ <;> rw [h]

/-- The input fields of `g` after `system_add_input_handler` from a state in
which they were cleared, by the point at which the call stopped. -/
theorem add_input_fields (hf hd : Nat) (os : InputOS) (m : Machine) (h : input_cleared m.g) :
    (system_add_input_handler hf hd os m).2.g.input_port = os.port ∧
    (system_add_input_handler hf hd os m).2.g.input_io = (if os.port = 0 then 0 else os.io) ∧
    (system_add_input_handler hf hd os m).2.g.input_opened =
      decide (os.port ≠ 0 ∧ os.io ≠ 0 ∧ os.open_err = 0) ∧
    (system_add_input_handler hf hd os m).2.g.input_handler =
      (if os.port ≠ 0 ∧ os.io ≠ 0 ∧ os.open_err = 0 then os.mem else 0) ∧
    (system_add_input_handler hf hd os m).2.g.input_handler_added =
      decide (os.port ≠ 0 ∧ os.io ≠ 0 ∧ os.open_err = 0 ∧ os.mem ≠ 0 ∧ os.doio_err = 0) ∧
    ((system_add_input_handler hf hd os m).1 = Status.StatusOK ↔
      (os.port ≠ 0 ∧ os.io ≠ 0 ∧ os.open_err = 0 ∧ os.mem ≠ 0 ∧ os.doio_err = 0)) := by
  obtain ⟨h1, h2, h3, h4, h5⟩ := h
  obtain ⟨port, io, oerr, mem, derr⟩ := os
  by_cases hp : port = 0
  · simp [system_add_input_handler, emit, hp, assert_failed_fields, h2, h3, h4, h5]
  by_cases hi : io = 0
  · simp [system_add_input_handler, emit, hp, hi, assert_failed_fields, h3, h4, h5]
  by_cases ho : oerr = 0
  swap
  · simp [system_add_input_handler, emit, hp, hi, ho, assert_failed_fields, h3, h4, h5]
  by_cases hm : mem = 0
  · simp [system_add_input_handler, emit, hp, hi, ho, hm, assert_failed_fields, h5]
  by_cases hd : derr = 0
  swap
  · simp [system_add_input_handler, emit, hp, hi, ho, hm, hd, assert_failed_fields, h5]
  simp [system_add_input_handler, emit, hp, hi, ho, hm, hd]

/-! ## The claims -/

/-- C1. Bracket symmetry of the saved registers: from every state with task
switching enabled, `system_acquire_control` followed by `system_release_control`
leaves `copcon`, `dmaconr`, `intenar`, `intreqr`, the level 2 vector slot and
the `task_switch_disabled` flag equal to what they were before the acquire. -/
theorem bracket_restores_saved_registers (m : Machine)
    (h : m.g.task_switch_disabled = false) :
    (system_release_control (system_acquire_control m)).custom.copcon = m.custom.copcon ∧
    (system_release_control (system_acquire_control m)).custom.dmaconr = m.custom.dmaconr ∧
    (system_release_control (system_acquire_control m)).custom.intenar = m.custom.intenar ∧
    (system_release_control (system_acquire_control m)).custom.intreqr = m.custom.intreqr ∧
    (system_release_control (system_acquire_control m)).vbr_lvl2 = m.vbr_lvl2 ∧
    (system_release_control (system_acquire_control m)).g.task_switch_disabled =
      m.g.task_switch_disabled := by
  rw [release_custom, (release_frame _).1, release_g, acquire_g, acquire_custom, h]
  dsimp only
  refine ⟨rfl, ?_, ?_, ?_, rfl, rfl⟩
  · exact write_xor_after_set m.custom.dmaconr kSessionDma (by decide)
  · exact intena_restore _ m.custom.intenar (intena_high_after_acquire m.custom.intenar)
  · exact intreq_restore _ m.custom.intreqr (fun i hi => by
      rw [testBit_write_setclr_high _ _ i hi, testBit_write_setclr_high _ _ i hi])

/-- C1 at the example host state. -/
theorem bracket_restores_saved_registers_witness :
    host_state.g.task_switch_disabled = false ∧
    (system_release_control (system_acquire_control host_state)).custom.copcon = 0 ∧
    (system_release_control (system_acquire_control host_state)).custom.dmaconr = 0x03D0 ∧
    (system_release_control (system_acquire_control host_state)).custom.intenar = 0x602C ∧
    (system_release_control (system_acquire_control host_state)).custom.intreqr = 0x0020 ∧
    (system_release_control (system_acquire_control host_state)).vbr_lvl2 = 0x00FC0D14 ∧
    (system_release_control (system_acquire_control host_state)).g.task_switch_disabled = false :=
  ⟨rfl, bracket_restores_saved_registers host_state rfl⟩

/-- C2 fails as stated: with no step of the acquire executed (k = 0), so that no
snapshot was captured, `system_release_control` still writes every register:
the level 2 vector slot, the interrupt enables, the pending requests and the
DMA enables all become 0. -/
theorem release_without_acquire_overwrites :
    acquire_steps 0 fresh_state = fresh_state ∧
    fresh_state.vbr_lvl2 = 0x00FC0D14 ∧
    (system_release_control (acquire_steps 0 fresh_state)).vbr_lvl2 = 0 ∧
    fresh_state.custom.intenar = 0x602C ∧
    (system_release_control (acquire_steps 0 fresh_state)).custom.intenar = 0 ∧
    fresh_state.custom.intreqr = 0x0020 ∧
    (system_release_control (acquire_steps 0 fresh_state)).custom.intreqr = 0 ∧
    fresh_state.custom.dmaconr = 0x03D0 ∧
    (system_release_control (acquire_steps 0 fresh_state)).custom.dmaconr = 0 := by
  decide

/-- C2 (amended). For every k from 0 to 9, after only the first k steps of
`system_acquire_control`, `system_release_control` gives back its pre-acquire
value to every register whose snapshot step is among steps 1..k (`copcon` from
k = 3, the DMA enables from k = 4, `intenar` and `intreqr` from k = 5, the
level 2 vector slot from k = 7) and leaves task switching enabled.  It is not
gated per step: a register whose snapshot step did not run is written all the
same, from what the `save_*` field held before: `copcon` and the vector slot
receive `save_copcon` and `save_vbr_lvl2`, the fifteen low bits of `intenar` and
`intreqr` those of `save_intena` and `save_intreq`, and `dmaconr` (snapshot and
readback free of bit 15) becomes the readback AND `save_dmacon`. -/
theorem release_after_first_steps (k : Nat) (hk : k ≤ 9) (m : Machine) :
    ((system_release_control (acquire_steps k m)).custom.copcon =
      if 3 ≤ k then m.custom.copcon else m.g.save_copcon) ∧
    ((system_release_control (acquire_steps k m)).vbr_lvl2 =
      if 7 ≤ k then m.vbr_lvl2 else m.g.save_vbr_lvl2) ∧
    (4 ≤ k → (system_release_control (acquire_steps k m)).custom.dmaconr = m.custom.dmaconr) ∧
    (5 ≤ k → (system_release_control (acquire_steps k m)).custom.intenar = m.custom.intenar) ∧
    (5 ≤ k → (system_release_control (acquire_steps k m)).custom.intreqr = m.custom.intreqr) ∧
    (k < 4 → m.g.save_dmacon < 2 ^ 15 → m.custom.dmaconr < 2 ^ 15 →
      (system_release_control (acquire_steps k m)).custom.dmaconr =
        m.custom.dmaconr &&& m.g.save_dmacon) ∧
    (k < 5 → (system_release_control (acquire_steps k m)).custom.intenar % 2 ^ 15 =
      m.g.save_intena % 2 ^ 15) ∧
    (k < 5 → (system_release_control (acquire_steps k m)).custom.intreqr % 2 ^ 15 =
      m.g.save_intreq % 2 ^ 15) ∧
    (system_release_control (acquire_steps k m)).g.task_switch_disabled = false := by
  refine ⟨?_, ?_, ?_, ?_, ?_, ?_, ?_, ?_, ?_⟩
  · rw [release_custom, steps_g k hk]
  · rw [(release_frame _).1, steps_g k hk]
  · intro h4
    rw [release_custom, steps_g k hk, steps_custom k hk]
    simp only [if_pos h4]
    exact write_xor_after_set m.custom.dmaconr kSessionDma (by decide)
  · intro h5
    rw [release_custom, steps_g k hk, steps_custom k hk]
    simp only [if_pos h5]
    refine intena_restore _ m.custom.intenar (fun i hi => ?_)
    rw [testBit_write_setclr_high _ _ i hi]
    split
    · rw [testBit_write_setclr_high _ _ i hi, testBit_write_setclr_high _ _ i hi]
    · rw [testBit_write_setclr_high _ _ i hi]
  · intro h5
    rw [release_custom, steps_g k hk, steps_custom k hk]
    simp only [if_pos h5]
    refine intreq_restore _ m.custom.intreqr (fun i hi => ?_)
    rw [testBit_write_setclr_high _ _ i hi, testBit_write_setclr_high _ _ i hi]
  · intro h4 hs hc
    have hg : (acquire_steps k m).g.save_dmacon = m.g.save_dmacon := by
      rw [steps_g k hk]
      simp only [if_neg (by omega : ¬ 4 ≤ k)]
    have hd : (acquire_steps k m).custom.dmaconr = m.custom.dmaconr := by
      rw [steps_custom k hk]
      simp only [if_neg (by omega : ¬ 4 ≤ k)]
    rw [release_dmaconr_and _ (by rw [hg]; exact hs) (by rw [hd]; exact hc), hg, hd]
  · intro h5
    rw [release_intenar_low, steps_g k hk]
    simp only [if_neg (by omega : ¬ 5 ≤ k)]
  · intro h5
    rw [release_intreqr_low, steps_g k hk]
    simp only [if_neg (by omega : ¬ 5 ≤ k)]
  · rw [release_g]

/-- C2 (amended) at k = 9 on the example host state and at k = 0 on the state
that never ran the acquire. -/
theorem release_after_first_steps_witness :
    (9 ≤ 9) ∧
    (system_release_control (acquire_steps 9 host_state)).custom.dmaconr =
      host_state.custom.dmaconr ∧
    (system_release_control (acquire_steps 9 host_state)).custom.intenar =
      host_state.custom.intenar ∧
    (system_release_control (acquire_steps 9 host_state)).custom.intreqr =
      host_state.custom.intreqr ∧
    (system_release_control (acquire_steps 0 fresh_state)).custom.dmaconr =
      fresh_state.custom.dmaconr &&& fresh_state.g.save_dmacon ∧
    (system_release_control (acquire_steps 0 fresh_state)).custom.intenar % 2 ^ 15 =
      fresh_state.g.save_intena % 2 ^ 15 :=
  ⟨by decide,
    (release_after_first_steps 9 (by decide) host_state).2.2.1 (by decide),
    (release_after_first_steps 9 (by decide) host_state).2.2.2.1 (by decide),
    (release_after_first_steps 9 (by decide) host_state).2.2.2.2.1 (by decide),
    (release_after_first_steps 0 (by decide) fresh_state).2.2.2.2.2.1
      (by decide) (by decide) (by decide),
    (release_after_first_steps 0 (by decide) fresh_state).2.2.2.2.2.2.1 (by decide)⟩

/-- C3. Idempotent release: after one `system_acquire_control`, a second
`system_release_control` in a row leaves the registers (`copcon`, `dmaconr`,
`intenar`, `intreqr`, `cop1lc`), the level 2 vector slot and the session state
`g` exactly as the first one left them, and issues no `Permit()`. -/
theorem release_twice_same_as_once (m : Machine) :
    (system_release_control (system_release_control (system_acquire_control m))).custom =
      (system_release_control (system_acquire_control m)).custom ∧
    (system_release_control (system_release_control (system_acquire_control m))).vbr_lvl2 =
      (system_release_control (system_acquire_control m)).vbr_lvl2 ∧
    (system_release_control (system_release_control (system_acquire_control m))).g =
      (system_release_control (system_acquire_control m)).g ∧
    Effect.Permit ∉
      effects system_release_control (system_release_control (system_acquire_control m)) := by
  have hg : (system_release_control (system_acquire_control m)).g =
      { m.g with
        task_switch_disabled := false,
        save_copcon := m.custom.copcon,
        save_dmacon := m.custom.dmaconr,
        save_intena := m.custom.intenar,
        save_intreq := m.custom.intreqr,
        save_vbr_lvl2 := m.vbr_lvl2 } := by
    rw [release_g, acquire_g]
  have hc := bracket_custom m
  have hci : (system_release_control (system_acquire_control m)).copinit = m.copinit := by
    rw [(release_frame _).2.2.2.1, (acquire_frame m).2.2.2.1]
  refine ⟨?_, ?_, ?_, ?_⟩
  · rw [release_custom_of_saved _ (by rw [hg, hc]) (by rw [hg, hc]) (by rw [hg, hc])
      (by rw [hg, hc]), hc, hci]
  · rw [(release_frame _).1, hg, (release_frame _).1, acquire_g]
  · rw [release_g, hg]
  · rw [effects_release, hg]
    simp [release_writes]

/-- C4 fails as stated: when `system_release_control` runs a second time in a
row after a session from the host state, task switching is no longer disabled,
no `Permit()` is issued and the last effect is the `cop1lc` write. -/
theorem second_release_has_no_permit :
    (system_release_control (system_acquire_control host_state)).g.task_switch_disabled = false ∧
    Effect.Permit ∉
      effects system_release_control (system_release_control (system_acquire_control host_state)) ∧
    (effects system_release_control
      (system_release_control (system_acquire_control host_state))).getLast? =
      some (Effect.write_cop1lc 0x00001F40) := by
  decide

/-- C4 (amended). Release ordering: from every state the effects of
`system_release_control` are, in this order, `mt_remove_cia`; the `intena`
write for PORTS; the saved value to the level 2 vector slot; `intreq`
clear-all twice; `intreq` set|saved twice; `intena` clear-all then set|saved;
the `dmacon` write; the vertical blank wait; the blitter wait; the `copcon`
write; the `cop1lc` write; and then `Permit()` exactly when task switching was
disabled on entry, nothing more otherwise. -/
theorem release_effect_order (m : Machine) :
    effects system_release_control m =
      [Effect.mt_remove_cia,
       Effect.write_intena INTENA_PORTS,
       Effect.write_vbr_lvl2 (vbr_lvl2_addr m.vbr) m.g.save_vbr_lvl2,
       Effect.write_intreq INTREQ_CLEARALL,
       Effect.write_intreq INTREQ_CLEARALL,
       Effect.write_intreq (INTREQ_SET ||| m.g.save_intreq),
       Effect.write_intreq (INTREQ_SET ||| m.g.save_intreq),
       Effect.write_intena INTENA_CLEARALL,
       Effect.write_intena (INTENA_SET ||| m.g.save_intena),
       Effect.write_dmacon (m.g.save_dmacon ^^^ m.custom.dmaconr),
       Effect.gfx_wait_vblank,
       Effect.gfx_wait_blit,
       Effect.write_copcon m.g.save_copcon,
       Effect.write_cop1lc m.copinit] ++
      (if m.g.task_switch_disabled then [Effect.Permit] else []) := by
  rw [effects_release]
  rfl

/-- C5 fails as stated: with disk and audio DMA enabled before the call, both
are still enabled after `system_acquire_control`, so the enabled set is not the
session's set. -/
theorem acquire_leaves_disk_dma_enabled :
    (system_acquire_control disk_audio_state).custom.dmaconr = 0x03F1 ∧
    (system_acquire_control disk_audio_state).custom.dmaconr.testBit 4 = true ∧
    (system_acquire_control disk_audio_state).custom.dmaconr.testBit 0 = true ∧
    (system_acquire_control disk_audio_state).custom.dmaconr ≠
      DMACON_DMAEN ||| DMACON_BPLEN ||| DMACON_COPEN ||| DMACON_BLTEN ||| DMACON_SPREN := by
  decide

/-- C5 (amended). After `system_acquire_control` every channel of the session's
set (master enable, bitplane, copper, blitter, sprite, bits 9 to 5) is enabled,
and every other bit of `dmaconr` is as it was before the call: the write only
sets bits, so `dmaconr` is the old value OR the session's set. -/
theorem acquire_enables_session_dma (m : Machine) :
    (system_acquire_control m).custom.dmaconr =
      m.custom.dmaconr |||
        (DMACON_DMAEN ||| DMACON_BPLEN ||| DMACON_COPEN ||| DMACON_BLTEN ||| DMACON_SPREN) ∧
    (∀ i, (system_acquire_control m).custom.dmaconr.testBit i =
      (m.custom.dmaconr.testBit i || decide (5 ≤ i ∧ i ≤ 9))) ∧
    (system_acquire_control m).g.save_dmacon = m.custom.dmaconr := by
  refine ⟨acquire_dmaconr m, fun i => ?_, ?_⟩
  · rw [acquire_dmaconr, Nat.testBit_or, testBit_session_channels]
  · rw [acquire_g]

/-- C6. After step 8 of `system_acquire_control`, before the audio hooks are
installed, none of the fifteen request bits of `intreqr` is set, the fifteen
enable bits of `intenar` are exactly the PORTS bit, and `save_intena` and
`save_intreq` hold the values the registers had before the clears. -/
theorem interrupts_after_step8 (m : Machine) :
    (acquire_steps 8 m).custom.intreqr % 2 ^ 15 = 0 ∧
    (acquire_steps 8 m).custom.intenar % 2 ^ 15 = INTENA_PORTS ∧
    (acquire_steps 8 m).g.save_intena = m.custom.intenar ∧
    (acquire_steps 8 m).g.save_intreq = m.custom.intreqr := by
  rw [steps8_custom, steps8_g, acquire_custom, acquire_g]
  dsimp only
  refine ⟨?_, ?_, rfl, rfl⟩
  · apply Nat.eq_of_testBit_eq
    intro i
    simp only [INTREQ_CLEARALL]
    rw [Nat.testBit_mod_two_pow, testBit_write_clearall, testBit_write_clearall]
    cases decide (i < 15) <;> simp
  · apply Nat.eq_of_testBit_eq
    intro i
    have h15 : (INTENA_SET ||| INTENA_PORTS).testBit 15 = true := by decide
    have hs : (INTENA_SET ||| INTENA_PORTS).testBit i = (decide (i = 15) || decide (i = 3)) := by
      simp only [INTENA_SET]
      rw [testBit_set_or, testBit_ports]
    simp only [INTENA_CLEARALL]
    rw [Nat.testBit_mod_two_pow, testBit_write_setclr_set _ _ i h15, testBit_write_clearall, hs,
      testBit_ports]
    by_cases hi : i < 15
    · have h1 : ¬ i = 15 := by omega
      simp [hi, h1]
    · have h3 : ¬ i = 3 := by omega
      simp [hi, h3]

/-- C7 fails as stated: with snapshot 0x0210 and readback 0x0200 the write is
`dmacon = 0x0010`, a clear of a bit that is already clear; bit 4, on which the
two differ, is not toggled and `dmaconr` stays 0x0200, not the snapshot. -/
theorem release_does_not_reenable_dma :
    dma_dropped_state.g.save_dmacon ^^^ dma_dropped_state.custom.dmaconr = 0x0010 ∧
    (system_release_control dma_dropped_state).custom.dmaconr = 0x0200 ∧
    (system_release_control dma_dropped_state).custom.dmaconr ≠
      dma_dropped_state.g.save_dmacon ∧
    (system_release_control dma_dropped_state).custom.dmaconr.testBit 4 =
      dma_dropped_state.custom.dmaconr.testBit 4 := by
  decide

/-- C7 (amended). DMA restore by difference: for every snapshot `save_dmacon`
and every readback of `dmaconr` at release time, both with bit 15 zero as
`dmaconr` reads, the write `dmacon = s ^ c` in `system_release_control` clears
exactly the bits that are set in the readback and not in the snapshot and
modifies no other bit, so afterwards `dmaconr` is the readback AND the
snapshot; it equals the snapshot exactly when every bit of the snapshot is
still set in the readback. -/
theorem release_dma_clears_extra_bits (m : Machine)
    (hs : m.g.save_dmacon < 2 ^ 15) (hc : m.custom.dmaconr < 2 ^ 15) :
    (system_release_control m).custom.dmaconr = m.custom.dmaconr &&& m.g.save_dmacon ∧
    (∀ i, (system_release_control m).custom.dmaconr.testBit i =
      (m.custom.dmaconr.testBit i && m.g.save_dmacon.testBit i)) ∧
    (∀ i, m.g.save_dmacon.testBit i = m.custom.dmaconr.testBit i →
      (system_release_control m).custom.dmaconr.testBit i = m.custom.dmaconr.testBit i) ∧
    ((system_release_control m).custom.dmaconr = m.g.save_dmacon ↔
      m.custom.dmaconr &&& m.g.save_dmacon = m.g.save_dmacon) := by
  have heq := release_dmaconr_and m hs hc
  refine ⟨heq, fun i => ?_, fun i hi => ?_, ?_⟩
  · rw [heq, Nat.testBit_and]
  · rw [heq, Nat.testBit_and, hi, Bool.and_self]
  · rw [heq]

/-- C7 (amended) at the state reached by a session from the example host state:
snapshot 0x03D0, readback 0x03F0, restored to 0x03D0. -/
theorem release_dma_clears_extra_bits_witness :
    (system_acquire_control host_state).g.save_dmacon < 2 ^ 15 ∧
    (system_acquire_control host_state).custom.dmaconr < 2 ^ 15 ∧
    (system_release_control (system_acquire_control host_state)).custom.dmaconr =
      (system_acquire_control host_state).custom.dmaconr &&&
        (system_acquire_control host_state).g.save_dmacon :=
  ⟨by decide, by decide,
    (release_dma_clears_extra_bits (system_acquire_control host_state)
      (by decide) (by decide)).1⟩

/-- C8 fails as stated: the host state has `cop1lc = 0x20000`; after
`system_acquire_control` and `system_release_control` it holds
`GfxBase->copinit = 0x1F40`. -/
theorem bracket_changes_cop1lc :
    host_state.custom.cop1lc = 0x00020000 ∧
    (system_release_control (system_acquire_control host_state)).custom.cop1lc = 0x00001F40 ∧
    (system_release_control (system_acquire_control host_state)).custom.cop1lc ≠
      host_state.custom.cop1lc := by
  decide

/-- C8 (amended). `system_acquire_control` neither writes `cop1lc` nor records
it: the session state it leaves is the same whatever `cop1lc` held.
`system_release_control` writes `GfxBase->copinit` to `cop1lc`, so after
acquire and release `cop1lc` equals `GfxBase->copinit`, whatever it held before
the acquire. -/
theorem release_sets_cop1lc_to_copinit (m : Machine) (v : Nat) :
    (system_acquire_control m).custom.cop1lc = m.custom.cop1lc ∧
    (system_acquire_control { m with custom := { m.custom with cop1lc := v } }).g =
      (system_acquire_control m).g ∧
    (system_release_control m).custom.cop1lc = m.copinit ∧
    (system_release_control (system_acquire_control m)).custom.cop1lc = m.copinit := by
  refine ⟨?_, ?_, ?_, ?_⟩
  · rw [acquire_custom]
  · rw [acquire_g, acquire_g]
  · rw [release_custom]
  · rw [bracket_custom]

/-- C9 fails as stated: while the session opened by `system_acquire_control`
from the host state is open, the console is available (`DOSBase` non-null) and
`system_print_error` performs no console write and no `DisownBlitter`. -/
theorem print_error_silent_in_session :
    (system_acquire_control host_state).DOSBase ≠ 0 ∧
    (system_acquire_control host_state).g.blitter_owned = true ∧
    effects (system_print_error "x") (system_acquire_control host_state) = [] := by
  decide

/-- C9 (amended). Scoped diagnostic borrow: in every state with `DOSBase`
non-null, task switching not disabled and the blitter owned,
`system_print_error` issues `DisownBlitter`, then `Output()` and the three
`Write` calls with `blitter_owned` false before and after them, then
`OwnBlitter`, and returns with `g` as it was (so `blitter_owned` true again and
every `save_*` field unchanged).  In every state in which task switching is
disabled, as it is while a session opened by `system_acquire_control` is open,
it does nothing at all.  In every state it changes no field of `g` other than
`blitter_owned`. -/
theorem print_error_scoped_borrow (msg : String) (m : Machine) :
    (m.DOSBase ≠ 0 → m.g.task_switch_disabled = false → m.g.blitter_owned = true →
      effects (system_print_error msg) m =
        [Effect.DisownBlitter, Effect.Output, Effect.Write "modsurfer: assert(",
         Effect.Write msg, Effect.Write ") failed\n", Effect.OwnBlitter] ∧
      system_print_error msg m =
        system_acquire_blitter (console_write msg (system_release_blitter m)) ∧
      (system_release_blitter m).g.blitter_owned = false ∧
      (console_write msg (system_release_blitter m)).g.blitter_owned = false ∧
      (system_print_error msg m).g = m.g) ∧
    (m.g.task_switch_disabled = true → system_print_error msg m = m) ∧
    system_print_error msg (system_acquire_control m) = system_acquire_control m ∧
    (system_print_error msg m).g =
      { m.g with blitter_owned := (system_print_error msg m).g.blitter_owned } := by
  refine ⟨?_, print_error_when_disabled msg m, ?_, print_error_g msg m⟩
  · intro hd hts hbo
    obtain ⟨c, vbr, v2, l2, ci, dos, ⟨g1, g2, g3, g4, g5, g6, g7, ts, bo, g10, g11, g12, g13, g14, g15⟩, tr⟩ := m
    simp only at hd hts hbo
    subst hts hbo
    simp [effects, system_print_error, hd, system_acquire_blitter, system_release_blitter,
      console_write, out_strs, emit]
  · apply print_error_when_disabled
    rw [acquire_g]

/-- C9 (amended) at the example host state. -/
theorem print_error_scoped_borrow_witness :
    host_state.DOSBase ≠ 0 ∧ host_state.g.task_switch_disabled = false ∧
    host_state.g.blitter_owned = true ∧
    effects (system_print_error "x") host_state =
      [Effect.DisownBlitter, Effect.Output, Effect.Write "modsurfer: assert(",
       Effect.Write "x", Effect.Write ") failed\n", Effect.OwnBlitter] ∧
    (system_print_error "x" host_state).g = host_state.g :=
  ⟨by decide, by decide, by decide,
    ((print_error_scoped_borrow "x" host_state).1 (by decide) (by decide) (by decide)).1,
    ((print_error_scoped_borrow "x" host_state).1 (by decide) (by decide) (by decide)).2.2.2.2⟩

/-- C10. Flag-gated input-handler teardown: after `system_add_input_handler`,
at whichever of its five failure points it stopped or after full success,
`system_remove_input_handler` performs exactly the undo operations selected by
the fields of `g` (remove-handler iff `input_handler_added`, `FreeMem` iff
`input_handler` is non-null, `CloseDevice` iff `input_opened`, `DeleteExtIO` iff
`input_io` is non-null, `DeletePort` iff `input_port` is non-null) and no
others, leaves all five fields cleared, and a second
`system_remove_input_handler` performs no operation.  When the input fields
were cleared before the add, these are the operations matching what the call
acquired: nothing for a failure at port creation; `DeletePort` at I/O request
creation; `DeleteExtIO`, `DeletePort` at device open; `CloseDevice`,
`DeleteExtIO`, `DeletePort` at handler allocation; `FreeMem` and those three at
the add-handler request; the remove-handler request, `FreeMem` and those three
after full success. -/
theorem remove_input_handler_undoes_acquired (hf hd : Nat) (os : InputOS) (m : Machine) :
    effects system_remove_input_handler (system_add_input_handler hf hd os m).2 =
      remove_undo_ops (system_add_input_handler hf hd os m).2.g ∧
    input_cleared (system_remove_input_handler (system_add_input_handler hf hd os m).2).g ∧
    effects system_remove_input_handler
      (system_remove_input_handler (system_add_input_handler hf hd os m).2) = [] ∧
    (input_cleared m.g →
      (os.port = 0 →
        effects system_remove_input_handler (system_add_input_handler hf hd os m).2 = []) ∧
      (os.port ≠ 0 → os.io = 0 →
        effects system_remove_input_handler (system_add_input_handler hf hd os m).2 =
          [Effect.DeletePort os.port]) ∧
      (os.port ≠ 0 → os.io ≠ 0 → os.open_err ≠ 0 →
        effects system_remove_input_handler (system_add_input_handler hf hd os m).2 =
          [Effect.DeleteExtIOReq os.io, Effect.DeletePort os.port]) ∧
      (os.port ≠ 0 → os.io ≠ 0 → os.open_err = 0 → os.mem = 0 →
        effects system_remove_input_handler (system_add_input_handler hf hd os m).2 =
          [Effect.CloseDevice os.io, Effect.DeleteExtIOReq os.io, Effect.DeletePort os.port]) ∧
      (os.port ≠ 0 → os.io ≠ 0 → os.open_err = 0 → os.mem ≠ 0 → os.doio_err ≠ 0 →
        effects system_remove_input_handler (system_add_input_handler hf hd os m).2 =
          [Effect.FreeMem os.mem, Effect.CloseDevice os.io, Effect.DeleteExtIOReq os.io,
           Effect.DeletePort os.port]) ∧
      (os.port ≠ 0 → os.io ≠ 0 → os.open_err = 0 → os.mem ≠ 0 → os.doio_err = 0 →
        (system_add_input_handler hf hd os m).1 = Status.StatusOK ∧
        effects system_remove_input_handler (system_add_input_handler hf hd os m).2 =
          [Effect.DoIOReq os.io InputCommand.IND_REMHANDLER os.mem, Effect.FreeMem os.mem,
           Effect.CloseDevice os.io, Effect.DeleteExtIOReq os.io,
           Effect.DeletePort os.port])) := by
  refine ⟨remove_effects _, ?_, remove_twice_effects _, ?_⟩
  · rw [remove_g]
    exact ⟨rfl, rfl, rfl, rfl, rfl⟩
  intro h
  obtain ⟨f1, f2, f3, f4, f5, f6⟩ := add_input_fields hf hd os m h
  refine ⟨?_, ?_, ?_, ?_, ?_, ?_⟩
  · intro hp
    rw [remove_effects]
    unfold remove_undo_ops
    rw [f1, f2, f3, f4, f5]
    simp [hp]
  · intro hp hi
    rw [remove_effects]
    unfold remove_undo_ops
    rw [f1, f2, f3, f4, f5]
    simp [hp, hi]
  · intro hp hi ho
    rw [remove_effects]
    unfold remove_undo_ops
    rw [f1, f2, f3, f4, f5]
    simp [hp, hi, ho]
  · intro hp hi ho hm
    rw [remove_effects]
    unfold remove_undo_ops
    rw [f1, f2, f3, f4, f5]
    simp [hp, hi, ho, hm]
  · intro hp hi ho hm hd
    rw [remove_effects]
    unfold remove_undo_ops
    rw [f1, f2, f3, f4, f5]
    simp [hp, hi, ho, hm, hd]
  · intro hp hi ho hm hd
    refine ⟨f6.2 ⟨hp, hi, ho, hm, hd⟩, ?_⟩
    rw [remove_effects]
    unfold remove_undo_ops
    rw [f1, f2, f3, f4, f5]
    simp [hp, hi, ho, hm, hd]

/-- C10 at the example host state with a failure at handler allocation. -/
theorem remove_input_handler_undoes_acquired_witness :
    input_cleared host_state.g ∧
    effects system_remove_input_handler
        (system_add_input_handler 0x00042000 0 os_alloc_fails host_state).2 =
      [Effect.CloseDevice 0x00C01040, Effect.DeleteExtIOReq 0x00C01040,
       Effect.DeletePort 0x00C01000] ∧
    effects system_remove_input_handler
      (system_remove_input_handler
        (system_add_input_handler 0x00042000 0 os_alloc_fails host_state).2) = [] :=
  ⟨by decide,
    ((remove_input_handler_undoes_acquired 0x00042000 0 os_alloc_fails host_state).2.2.2
      (by decide)).2.2.2.1 (by decide) (by decide) (by decide) (by decide),
    (remove_input_handler_undoes_acquired 0x00042000 0 os_alloc_fails host_state).2.2.1⟩

end ModSurfer
